import Mathlib

/-!
Shallow embedding of the Tripster scenic-route pipeline
(src/backend/app_scenic.py) and verification of its specification.

Numbers are modelled as exact rationals; Python dicts as insertion-ordered
association lists with overwrite-on-insert; the three external providers
(routing, places, narrative generation) as explicit oracle parameters, since
the safe request helpers convert every transport failure into an empty
result.  Dynamic JSON values (only needed for the narrative provider's
response body) are modelled by a small inductive type.
-/

namespace Tripster

/-- A dynamically typed JSON value, as returned by `resp.json()` in Python. -/
inductive Json where
  | null : Json
  | str : String → Json
  | num : ℚ → Json
  | arr : List Json → Json
  | obj : List (String × Json) → Json

/-- First-match association-list lookup; models Python `dict.get(k)`
on dictionaries represented as insertion-ordered key/value lists. -/
def pyGet (k : String) : List (String × α) → Option α
  | [] => none
  | kv :: rest => if kv.1 = k then some kv.2 else pyGet k rest

/-- Python `d[k] = v` on an insertion-ordered dictionary: overwrite the
existing entry in place, or append a new entry at the end. -/
def dictInsert (k : String) (v : α) : List (String × α) → List (String × α)
  | [] => [(k, v)]
  | kv :: rest => if kv.1 = k then (k, v) :: rest else kv :: dictInsert k v rest

/-- The keys of a dictionary, in insertion order. -/
def dictKeys (d : List (String × α)) : List String :=
  d.map Prod.fst

/-- A point of interest as produced by the places provider or the mock data:
a Python dict where `name`, `types` and `rating` may each be absent. -/
structure POI where
  name : Option String := none
  types : Option (List String) := none
  rating : Option ℚ := none
deriving DecidableEq

/-- The `polyline` sub-object of a route. -/
structure Polyline where
  encodedPolyline : String
deriving DecidableEq

/-- A candidate route between origin and destination. -/
structure Route where
  id : String
  label : Option String := none
  polyline : Polyline
  distanceMeters : Option ℤ := none
  durationSeconds : Option ℤ := none
  summary : Option String := none
deriving DecidableEq

/-- The pipeline's working record (`TripState` TypedDict, `total=False`):
every field after the two inputs may be absent until its stage writes it.
The dynamically typed `explanation` entry is a `Json` value because the
narrative provider's extracted text is stored without conversion. -/
structure TripState where
  origin : String
  destination : String
  routes : Option (List Route) := none
  places_by_route : Option (List (String × List POI)) := none
  scenic_scores : Option (List (String × ℚ)) := none
  explanation : Option Json := none

/-- Process-wide configuration: the two credentials read from the
environment at start-up (`GOOGLE_API_KEY`, `GEMINI_API_KEY`). -/
structure Config where
  googleKey : Option String := none
  geminiKey : Option String := none

/-- `mock_routes`: the fixed two-route fallback set.  The origin and
destination arguments are accepted but never inspected. -/
def mock_routes (origin : String) (destination : String) : List Route :=
  [ { id := "fastest"
      label := some "Fastest"
      polyline := { encodedPolyline := "\x7d_seFf|`uPd@w@`A_BvB\x7dC" }
      distanceMeters := some 190000
      durationSeconds := some 7200
      summary := some "I-17 N" },
    { id := "scenic"
      label := some "Scenic"
      polyline := { encodedPolyline := "o`seFz\x7b`uPp@jAb@l@" }
      distanceMeters := some 210000
      durationSeconds := some 8400
      summary := some "State Rte 179 through red rocks" } ]

/-- `mock_places`: the fixed two-park fallback POI set. -/
def mock_places : List POI :=
  [ { name := some "Oak Creek Canyon Vista", types := some ["park"], rating := some (4.7 : ℚ) },
    { name := some "Red Rock State Park", types := some ["park"], rating := some (4.8 : ℚ) } ]

/-- `get_routes`: with no routing credential use the mock set; otherwise the
provider's parsed route list (empty on any transport failure or missing
`routes` field, per `safe_post` and `resp.get("routes", [])`), with the
Python `or` falling back to the mock set when that list is empty. -/
def get_routes (cfg : Config) (providerRoutes : String → String → List Route)
    (state : TripState) : TripState :=
  match cfg.googleKey with
  | none => { state with routes := some (mock_routes state.origin state.destination) }
  | some _ =>
      let resp := providerRoutes state.origin state.destination
      { state with
          routes := some (if resp.isEmpty then mock_routes state.origin state.destination
                          else resp) }

/-- The POI list stored for one loop iteration of `get_places`: the mock set
when no credential is configured, otherwise the i-th provider call's parsed
`results` (empty on failure, per `safe_get` and `data.get("results", [])`). -/
def placesValue (cfg : Config) (providerPlaces : Nat → List POI) (i : Nat) : List POI :=
  match cfg.googleKey with
  | none => mock_places
  | some _ => providerPlaces i

/-- The `for r in routes` loop of `get_places`, threading the dictionary
being built and the index of the next provider call. -/
def get_places_loop (cfg : Config) (providerPlaces : Nat → List POI) :
    Nat → List Route → List (String × List POI) → List (String × List POI)
  | _, [], d => d
  | i, r :: rs, d =>
      get_places_loop cfg providerPlaces (i + 1) rs
        (dictInsert r.id (placesValue cfg providerPlaces i) d)

/-- `get_places`: build `places_by_route` with one dictionary entry per
route, each route enriched independently. -/
def get_places (cfg : Config) (providerPlaces : Nat → List POI)
    (state : TripState) : TripState :=
  { state with
      places_by_route :=
        some (get_places_loop cfg providerPlaces 0 (state.routes.getD []) []) }

/-- Round a rational to the nearest integer, ties to the even integer,
matching Python 3 `round` semantics on exact values. -/
def roundHalfToEven (q : ℚ) : ℤ :=
  let f := ⌊q⌋
  let r := q - (f : ℚ)
  if r < 1 / 2 then f
  else if 1 / 2 < r then f + 1
  else if f % 2 = 0 then f else f + 1

/-- Python `round(q, 2)`. -/
def round2 (q : ℚ) : ℚ :=
  ((roundHalfToEven (q * 100) : ℤ) : ℚ) / 100

/-- The per-route score computed by the body of `scenic_score`'s loop. -/
def routeScore (places : List POI) : ℚ :=
  let parks := places.countP (fun p => decide ("park" ∈ p.types.getD []))
  let water := places.countP (fun p => decide ("natural_feature" ∈ p.types.getD []))
  let attractions := places.countP (fun p => decide ("tourist_attraction" ∈ p.types.getD []))
  let avg_rating := (places.map (fun p => p.rating.getD 0)).sum / ((max 1 places.length : ℕ) : ℚ)
  round2 (min (10.0 : ℚ)
    (0.4 * (parks : ℚ) + 0.3 * (water : ℚ) + 0.2 * (attractions : ℚ) + 0.5 * avg_rating))

/-- The value inserted for route id `rid` by `scenic_score`: the score of
the POI list found under `rid` (empty when absent). -/
def scoreOf (pbr : List (String × List POI)) (rid : String) : ℚ :=
  routeScore ((pyGet rid pbr).getD [])

/-- `scenic_score`: build `scenic_scores` with one entry per route. -/
def scenic_score (state : TripState) : TripState :=
  { state with
      scenic_scores :=
        some ((state.routes.getD []).foldl
          (fun d r => dictInsert r.id (scoreOf (state.places_by_route.getD []) r.id) d) []) }

/-- Count of POIs whose categories include `"park"`, modelled from the spec
line `parks = count of POIs whose categories include "park"`. -/
def specParks (places : List POI) : ℕ :=
  places.countP (fun p => decide ("park" ∈ p.types.getD []))

/-- Count of POIs whose categories include `"natural_feature"` (spec). -/
def specWater (places : List POI) : ℕ :=
  places.countP (fun p => decide ("natural_feature" ∈ p.types.getD []))

/-- Count of POIs whose categories include `"tourist_attraction"` (spec). -/
def specAttractions (places : List POI) : ℕ :=
  places.countP (fun p => decide ("tourist_attraction" ∈ p.types.getD []))

/-- `avgRating = sum(rating over POIs) / max(1, count(POIs))` (spec),
with a missing rating counting as 0. -/
def specAvgRating (places : List POI) : ℚ :=
  (places.map (fun p => p.rating.getD 0)).sum / ((max 1 places.length : ℕ) : ℚ)

/-- `rawScore = 0.4*parks + 0.3*water + 0.2*attractions + 0.5*avgRating` (spec). -/
def specRawScore (places : List POI) : ℚ :=
  0.4 * (specParks places : ℚ) + 0.3 * (specWater places : ℚ)
    + 0.2 * (specAttractions places : ℚ) + 0.5 * specAvgRating places

/-- `score = round(min(10.0, rawScore), 2)` (spec). -/
def specScore (places : List POI) : ℚ :=
  round2 (min (10.0 : ℚ) (specRawScore places))

/-- One step of Python `max` with a key function: keep the current best
unless the new element's key is strictly greater. -/
def pyMaxFold (key : α → ℚ) (x : α) (xs : List α) : α :=
  xs.foldl (fun best y => if key best < key y then y else best) x

/-- Python `max(l, key=key, default=None)`. -/
def pyMax (key : α → ℚ) : List α → Option α
  | [] => none
  | x :: xs => some (pyMaxFold key x xs)

/-- The highlights phrase: the comma-joined names of the first three POIs,
or the literal substitute when that join is the empty string (Python
`", ".join(...) or "parks and landmarks"`; a missing name joins as `""`). -/
def highlightsOf (places : List POI) : String :=
  let joined := String.intercalate ", " ((places.take 3).map (fun p => p.name.getD ""))
  if joined = "" then "parks and landmarks" else joined

/-- Render a rational that is a multiple of 1/100 the way Python renders
the corresponding float inside an f-string (minimal fractional digits,
at least one). -/
def pyFloatStr (q : ℚ) : String :=
  let sign := if q < 0 then "-" else ""
  let c : ℤ := ⌊|q| * 100⌋
  let ip := c / 100
  let cents := c % 100
  let fracStr :=
    if cents % 10 = 0 then toString (cents / 10)
    else if cents < 10 then "0" ++ toString cents
    else toString cents
  sign ++ toString ip ++ "." ++ fracStr

/-- The deterministic templated fallback sentence of the narrative stage. -/
def explainTemplate (score : ℚ) (highlights : String) : String :=
  "This route scores " ++ pyFloatStr score ++ "/10 with highlights: " ++ highlights ++ "."

/-- Python `d.get(k, default)` on a JSON value: the named field (or the
default when absent) if the value is a dictionary, otherwise an
`AttributeError`, modelled as `Except.error`. -/
def pyDictGet (j : Json) (k : String) (dflt : Json) : Except Unit Json :=
  match j with
  | Json.obj fields => Except.ok ((pyGet k fields).getD dflt)
  | _ => Except.error ()

/-- Python `l[0]` on a JSON value: the first element of a non-empty array,
otherwise an `IndexError`/`TypeError`, modelled as `Except.error`. -/
def pyIndex0 (j : Json) : Except Unit Json :=
  match j with
  | Json.arr (x :: _) => Except.ok x
  | _ => Except.error ()

/-- The text-extraction expression of `explain_with_gemini`:
`data.get("candidates", [{}])[0].get("content", {}).get("parts", [{}])[0].get("text", "")`,
where any raised step aborts with `Except.error` (caught by the stage's
surrounding `try`). -/
def extractText (data : Json) : Except Unit Json :=
  match pyDictGet data "candidates" (Json.arr [Json.obj []]) with
  | Except.error e => Except.error e
  | Except.ok cands =>
    match pyIndex0 cands with
    | Except.error e => Except.error e
    | Except.ok c0 =>
      match pyDictGet c0 "content" (Json.obj []) with
      | Except.error e => Except.error e
      | Except.ok content =>
        match pyDictGet content "parts" (Json.arr [Json.obj []]) with
        | Except.error e => Except.error e
        | Except.ok parts =>
          match pyIndex0 parts with
          | Except.error e => Except.error e
          | Except.ok p0 => pyDictGet p0 "text" (Json.str "")

/-- `explain_with_gemini`: the narrative stage.  `geminiResp` is the outcome
of the external call, `Except.error ()` when the request or `resp.json()`
raised (network error, timeout, non-JSON body), `Except.ok data` when a
parsed JSON body was obtained.  The stage is a total function: it never
raises to its caller. -/
def explain_with_gemini (cfg : Config) (geminiResp : Except Unit Json)
    (state : TripState) : TripState :=
  match state.routes.getD [] with
  | [] => { state with explanation := some (Json.str "No routes available.") }
  | r0 :: rest =>
      let scenic_scores := state.scenic_scores.getD []
      let places_by_route := state.places_by_route.getD []
      let top := pyMaxFold (fun r => (pyGet r.id scenic_scores).getD 0) r0 rest
      let highlights := highlightsOf ((pyGet top.id places_by_route).getD [])
      let score := (pyGet top.id scenic_scores).getD 0
      let fallback := Json.str (explainTemplate score highlights)
      match cfg.geminiKey with
      | none => { state with explanation := some fallback }
      | some _ =>
          match geminiResp with
          | Except.error _ => { state with explanation := some fallback }
          | Except.ok data =>
              match extractText data with
              | Except.error _ => { state with explanation := some fallback }
              | Except.ok v => { state with explanation := some v }

/-- `app_graph.invoke`: the fixed linear four-stage pipeline. -/
def app_graph_invoke (cfg : Config) (providerRoutes : String → String → List Route)
    (providerPlaces : Nat → List POI) (geminiResp : Except Unit Json)
    (origin destination : String) : TripState :=
  explain_with_gemini cfg geminiResp
    (scenic_score
      (get_places cfg providerPlaces
        (get_routes cfg providerRoutes { origin := origin, destination := destination })))

/-- One entry of the response's `routes` array. -/
structure ApiRoute where
  id : String
  label : String
  polyline : String
  scenicScore : ℚ
deriving DecidableEq

/-- The body returned by the `/scenic` endpoint. -/
structure ScenicResponse where
  routes : List ApiRoute
  scores : List (String × ℚ)
  explanation : Json
  topScenicRouteId : Option String
  timestamp : ℤ

/-- The per-route entry built by `scenic_trip`'s comprehension. -/
def toApiRoute (scores : List (String × ℚ)) (r : Route) : ApiRoute :=
  { id := r.id
    label := r.label.getD "Route"
    polyline := r.polyline.encodedPolyline
    scenicScore := (pyGet r.id scores).getD 0 }

/-- Result assembly at the end of `scenic_trip`, after the pipeline has
run; `ts` is the captured `int(time.time())`. -/
def assembleResponse (result : TripState) (ts : ℤ) : ScenicResponse :=
  let scores := result.scenic_scores.getD []
  let routes := (result.routes.getD []).map (toApiRoute scores)
  { routes := routes
    scores := scores
    explanation := (result.explanation).getD (Json.str "")
    topScenicRouteId := (pyMax (fun x => x.scenicScore) routes).map (fun x => x.id)
    timestamp := ts }

/-- The `/scenic` endpoint: invoke the pipeline, then assemble the response. -/
def scenic_trip (cfg : Config) (providerRoutes : String → String → List Route)
    (providerPlaces : Nat → List POI) (geminiResp : Except Unit Json)
    (origin destination : String) (ts : ℤ) : ScenicResponse :=
  assembleResponse (app_graph_invoke cfg providerRoutes providerPlaces geminiResp origin destination) ts

/-- Looking a key up after an overwrite-insert sees the inserted value for
that key and is unchanged elsewhere. -/
lemma pyGet_dictInsert (k knew : String) (v : α) (d : List (String × α)) :
    pyGet k (dictInsert knew v d) = if knew = k then some v else pyGet k d := by
  induction d with
  | nil => simp [dictInsert, pyGet]
  | cons kv rest ih =>
      obtain ⟨a, b⟩ := kv
      by_cases hak : a = knew
      · subst hak
        simp only [dictInsert, if_pos rfl, pyGet]
        split_ifs <;> simp_all [pyGet]
      · simp only [dictInsert, if_neg hak]
        by_cases h1 : a = k
        · subst h1
          have hk : ¬ knew = a := fun h => hak h.symm
          simp [pyGet, hk]
        · simp [pyGet, h1, ih]

/-- Unfolding `dictKeys` one entry. -/
lemma dictKeys_cons (kv : String × α) (rest : List (String × α)) :
    dictKeys (kv :: rest) = kv.1 :: dictKeys rest := rfl

/-- Keys after an overwrite-insert: unchanged when the key was present,
otherwise the key is appended. -/
lemma dictKeys_dictInsert (k : String) (v : α) (d : List (String × α)) :
    dictKeys (dictInsert k v d)
      = if k ∈ dictKeys d then dictKeys d else dictKeys d ++ [k] := by
  induction d with
  | nil => simp [dictInsert, dictKeys]
  | cons kv rest ih =>
      obtain ⟨a, b⟩ := kv
      by_cases hak : a = k
      · subst hak
        simp [dictInsert, dictKeys]
      · have h1 : dictInsert k v ((a, b) :: rest) = (a, b) :: dictInsert k v rest := by
          simp [dictInsert, hak]
        rw [h1]
        simp only [dictKeys_cons, ih, List.mem_cons]
        by_cases hm : k ∈ dictKeys rest
        · simp [hm]
        · simp [hm, Ne.symm hak]

/-- Membership in the keys after an overwrite-insert. -/
lemma mem_dictKeys_dictInsert (q k : String) (v : α) (d : List (String × α)) :
    q ∈ dictKeys (dictInsert k v d) ↔ q = k ∨ q ∈ dictKeys d := by
  rw [dictKeys_dictInsert]
  split_ifs with h
  · constructor
    · exact fun hq => Or.inr hq
    · rintro (rfl | hq)
      · exact h
      · exact hq
  · simp [or_comm]

/-- Overwrite-insert preserves distinctness of the keys. -/
lemma nodup_dictKeys_dictInsert (k : String) (v : α) (d : List (String × α))
    (h : (dictKeys d).Nodup) : (dictKeys (dictInsert k v d)).Nodup := by
  rw [dictKeys_dictInsert]
  split_ifs with hm
  · exact h
  · simp [List.nodup_append, h, hm]

/-- Lookup through the `scenic_score` fold: every route id that occurs is
mapped to the score of its POI list; other keys fall through. -/
lemma pyGet_scoreFold (pbr : List (String × List POI)) :
    ∀ (rs : List Route) (d : List (String × ℚ)) (k : String),
    pyGet k (rs.foldl (fun d r => dictInsert r.id (scoreOf pbr r.id) d) d)
      = if k ∈ rs.map Route.id then some (scoreOf pbr k) else pyGet k d := by
  intro rs
  induction rs with
  | nil => intro d k; simp
  | cons r tl ih =>
      intro d k
      simp only [List.foldl_cons, List.map_cons, List.mem_cons]
      rw [ih]
      by_cases hk : k ∈ tl.map Route.id
      · simp [hk]
      · rw [pyGet_dictInsert]
        by_cases h2 : r.id = k
        · subst h2; simp [hk]
        · simp [hk, h2, Ne.symm h2]

/-- Keys produced by a fold of overwrite-inserts keyed by route ids. -/
lemma mem_dictKeys_insertFold (val : Route → α) :
    ∀ (rs : List Route) (d : List (String × α)) (k : String),
    k ∈ dictKeys (rs.foldl (fun d r => dictInsert r.id (val r) d) d)
      ↔ k ∈ rs.map Route.id ∨ k ∈ dictKeys d := by
  intro rs
  induction rs with
  | nil => intro d k; simp
  | cons r tl ih =>
      intro d k
      simp only [List.foldl_cons, List.map_cons, List.mem_cons]
      rw [ih, mem_dictKeys_dictInsert]
      tauto

/-- A fold of overwrite-inserts keeps the keys distinct. -/
lemma nodup_dictKeys_insertFold (val : Route → α) :
    ∀ (rs : List Route) (d : List (String × α)),
    (dictKeys d).Nodup →
      (dictKeys (rs.foldl (fun d r => dictInsert r.id (val r) d) d)).Nodup := by
  intro rs
  induction rs with
  | nil => intro d h; exact h
  | cons r tl ih =>
      intro d h
      simp only [List.foldl_cons]
      exact ih _ (nodup_dictKeys_dictInsert _ _ _ h)

/-- Keys produced by the `get_places` loop. -/
lemma mem_dictKeys_get_places_loop (cfg : Config) (pp : Nat → List POI) :
    ∀ (rs : List Route) (i : Nat) (d : List (String × List POI)) (k : String),
    k ∈ dictKeys (get_places_loop cfg pp i rs d)
      ↔ k ∈ rs.map Route.id ∨ k ∈ dictKeys d := by
  intro rs
  induction rs with
  | nil => intro i d k; simp [get_places_loop]
  | cons r tl ih =>
      intro i d k
      simp only [get_places_loop, List.map_cons, List.mem_cons]
      rw [ih, mem_dictKeys_dictInsert]
      tauto

/-- The `get_places` loop keeps the keys distinct. -/
lemma nodup_dictKeys_get_places_loop (cfg : Config) (pp : Nat → List POI) :
    ∀ (rs : List Route) (i : Nat) (d : List (String × List POI)),
    (dictKeys d).Nodup → (dictKeys (get_places_loop cfg pp i rs d)).Nodup := by
  intro rs
  induction rs with
  | nil => intro i d h; exact h
  | cons r tl ih =>
      intro i d h
      simp only [get_places_loop]
      exact ih _ _ (nodup_dictKeys_dictInsert _ _ _ h)

/-- The key of the running accumulator never decreases along `pyMaxFold`. -/
lemma key_le_pyMaxFold (key : α → ℚ) :
    ∀ (xs : List α) (x : α), key x ≤ key (pyMaxFold key x xs) := by
  intro xs
  induction xs with
  | nil => intro x; exact le_refl _
  | cons y tl ih =>
      intro x
      have hstep : pyMaxFold key x (y :: tl)
          = pyMaxFold key (if key x < key y then y else x) tl := rfl
      rw [hstep]
      refine le_trans ?_ (ih _)
      split_ifs with h
      · exact le_of_lt h
      · exact le_refl _

/-- Unfolding `pyMaxFold` one step. -/
lemma pyMaxFold_cons (key : α → ℚ) (x y : α) (tl : List α) :
    pyMaxFold key x (y :: tl) = pyMaxFold key (if key x < key y then y else x) tl := rfl

/-- Python `max` with a key returns the first element attaining the maximum
key: everything strictly before it has a strictly smaller key, everything
after it a key no greater. -/
lemma pyMaxFold_decomp (key : α → ℚ) :
    ∀ (xs : List α) (x : α), ∃ l₁ l₂,
      x :: xs = l₁ ++ pyMaxFold key x xs :: l₂
      ∧ (∀ y ∈ l₁, key y < key (pyMaxFold key x xs))
      ∧ (∀ y ∈ l₂, key y ≤ key (pyMaxFold key x xs)) := by
  intro xs
  induction xs with
  | nil => intro x; exact ⟨[], [], rfl, by simp, by simp⟩
  | cons y tl ih =>
      intro x
      rw [pyMaxFold_cons]
      by_cases hxy : key x < key y
      · rw [if_pos hxy]
        obtain ⟨l₁, l₂, hdec, h1, h2⟩ := ih y
        have hym : key y ≤ key (pyMaxFold key y tl) := key_le_pyMaxFold key tl y
        refine ⟨x :: l₁, l₂, ?_, ?_, h2⟩
        · rw [List.cons_append, ← hdec]
        · intro z hz
          rcases List.mem_cons.mp hz with rfl | hz
          · exact lt_of_lt_of_le hxy hym
          · exact h1 z hz
      · rw [if_neg hxy]
        have hyx : key y ≤ key x := le_of_not_lt hxy
        obtain ⟨l₁, l₂, hdec, h1, h2⟩ := ih x
        cases l₁ with
        | nil =>
            simp only [List.nil_append] at hdec
            obtain ⟨hm, hl₂⟩ := List.cons.inj hdec
            refine ⟨[], y :: tl, ?_, by simp, ?_⟩
            · rw [List.nil_append, ← hm]
            · intro z hz
              rcases List.mem_cons.mp hz with rfl | hz
              · exact le_trans hyx (le_of_eq (congrArg key hm))
              · exact h2 z (hl₂ ▸ hz)
        | cons a l₁t =>
            simp only [List.cons_append] at hdec
            obtain ⟨ha, htl⟩ := List.cons.inj hdec
            have hxm : key x < key (pyMaxFold key x tl) := by
              have hax := h1 a (List.mem_cons_self a l₁t)
              rw [← ha] at hax
              exact hax
            refine ⟨x :: y :: l₁t, l₂, ?_, ?_, h2⟩
            · simp only [List.cons_append]
              exact congrArg (fun l => x :: y :: l) htl
            · intro z hz
              rcases List.mem_cons.mp hz with rfl | hz
              · exact hxm
              rcases List.mem_cons.mp hz with rfl | hz
              · exact lt_of_le_of_lt hyx hxm
              · exact h1 z (List.mem_cons_of_mem a hz)

/-- `pyMaxFold` commutes with mapping when the keys agree through the map. -/
lemma pyMaxFold_map (f : α → β) (key : β → ℚ) :
    ∀ (xs : List α) (x : α),
    pyMaxFold key (f x) (xs.map f) = f (pyMaxFold (fun a => key (f a)) x xs) := by
  intro xs
  induction xs with
  | nil => intro x; rfl
  | cons y tl ih =>
      intro x
      simp only [List.map_cons, pyMaxFold_cons]
      rw [← apply_ite f, ih]

/-- Rounding half-to-even fixes integer values. -/
lemma roundHalfToEven_intCast (n : ℤ) : roundHalfToEven ((n : ℤ) : ℚ) = n := by
  simp only [roundHalfToEven, Int.floor_intCast]
  norm_num

/-- Two-decimal rounding fixes integer values. -/
lemma round2_intCast (n : ℤ) : round2 ((n : ℤ) : ℚ) = ((n : ℤ) : ℚ) := by
  have h : ((n : ℤ) : ℚ) * 100 = (((n * 100 : ℤ) : ℤ) : ℚ) := by push_cast; ring
  rw [round2, h, roundHalfToEven_intCast]
  push_cast
  rw [mul_div_assoc]
  norm_num

/-- round2 0 = 0. -/
lemma round2_zero : round2 (0 : ℚ) = 0 := by
  have h := round2_intCast 0
  simpa using h

/-- round2 10 = 10. -/
lemma round2_ten : round2 (10 : ℚ) = 10 := by
  have h := round2_intCast 10
  simpa using h

/-- An empty POI list scores 0. -/
lemma routeScore_nil : routeScore [] = 0 := by
  unfold routeScore
  simp only [List.countP_nil, List.map_nil, List.sum_nil, List.length_nil]
  norm_num [min_def, round2_zero]

/-- C1: for every route in the state, the scoring stage records under that
route's id exactly the spec's score round(min(10.0, 0.4*parks + 0.3*water +
0.2*attractions + 0.5*avgRating), 2) of the route's POI list, where the
three counts test category membership, avgRating divides the rating sum by
max(1, count) with a missing rating counting 0; and whenever the raw score
exceeds 10 the reported score is exactly 10. -/
theorem scenic_scoring_formula (s : TripState) (r : Route)
    (h : r ∈ s.routes.getD []) :
    pyGet r.id ((scenic_score s).scenic_scores.getD [])
      = some (specScore ((pyGet r.id (s.places_by_route.getD [])).getD []))
    ∧ ∀ places : List POI, (10 : ℚ) < specRawScore places → specScore places = 10 := by
  constructor
  · simp only [scenic_score, Option.getD_some]
    rw [pyGet_scoreFold, if_pos (List.mem_map_of_mem Route.id h)]
    rfl
  · intro places hgt
    have h10 : (10.0 : ℚ) = 10 := by norm_num
    unfold specScore
    rw [h10, min_eq_left (le_of_lt hgt), round2_ten]

/-- Instantiation of the scoring-formula theorem at a one-route state whose
route is enriched with the mock POI set. -/
theorem scenic_scoring_formula_witness :
    pyGet "a" ((scenic_score
        ⟨"o", "t", some [⟨"a", none, ⟨"p"⟩, none, none, none⟩],
          some [("a", mock_places)], none, none⟩).scenic_scores.getD [])
      = some (specScore ((pyGet "a" ((some [("a", mock_places)] :
          Option (List (String × List POI))).getD [])).getD [])) :=
  (scenic_scoring_formula
    ⟨"o", "t", some [⟨"a", none, ⟨"p"⟩, none, none, none⟩],
      some [("a", mock_places)], none, none⟩
    ⟨"a", none, ⟨"p"⟩, none, none, none⟩ (by simp)).1

/-- C7: the scoring stage is deterministic and reads nothing outside its
inputs: two states agreeing on `routes` and `places_by_route` receive
identical score mappings whatever their other fields, and the stage takes
no configuration and no oracle. -/
theorem scenic_scoring_deterministic (s₁ s₂ : TripState)
    (hr : s₁.routes = s₂.routes) (hp : s₁.places_by_route = s₂.places_by_route) :
    (scenic_score s₁).scenic_scores = (scenic_score s₂).scenic_scores := by
  simp [scenic_score, hr, hp]

/-- Instantiation of scoring determinism at two states differing in their
endpoints and explanation but agreeing on routes and POI data. -/
theorem scenic_scoring_deterministic_witness :
    (scenic_score
        ⟨"a", "b", some (mock_routes "a" "b"),
          some [("fastest", mock_places)], none, none⟩).scenic_scores
      = (scenic_score
        ⟨"x", "y", some (mock_routes "a" "b"),
          some [("fastest", mock_places)], none, some (Json.str "e")⟩).scenic_scores :=
  scenic_scoring_deterministic _ _ rfl rfl

/-- C8: with an empty POI list the average-rating term is 0 thanks to the
denominator floor max(1, count), and the score recorded for any route whose
POI list is empty is computed without error and equals 0. -/
theorem empty_poi_zero_score (s : TripState) (r : Route)
    (h : r ∈ s.routes.getD [])
    (hp : (pyGet r.id (s.places_by_route.getD [])).getD [] = []) :
    specAvgRating [] = 0
    ∧ pyGet r.id ((scenic_score s).scenic_scores.getD []) = some 0 := by
  constructor
  · norm_num [specAvgRating]
  · simp only [scenic_score, Option.getD_some]
    rw [pyGet_scoreFold, if_pos (List.mem_map_of_mem Route.id h)]
    simp only [scoreOf, hp, routeScore_nil]

/-- Instantiation of the empty-POI theorem at a one-route state whose
route's POI list is present but empty. -/
theorem empty_poi_zero_score_witness :
    specAvgRating [] = 0
    ∧ pyGet "a" ((scenic_score
        ⟨"o", "t", some [⟨"a", none, ⟨"p"⟩, none, none, none⟩],
          some [("a", ([] : List POI))], none, none⟩).scenic_scores.getD [])
        = some 0 :=
  empty_poi_zero_score
    ⟨"o", "t", some [⟨"a", none, ⟨"p"⟩, none, none, none⟩],
      some [("a", ([] : List POI))], none, none⟩
    ⟨"a", none, ⟨"p"⟩, none, none, none⟩ (by simp) (by simp [pyGet])

/-- C9: the mock route generator ignores its origin and destination
arguments: any two argument pairs yield identical route lists, so the
fallback route set carries no information about the requested endpoints. -/
theorem mock_routes_independent (o d o₂ d₂ : String) :
    mock_routes o d = mock_routes o₂ d₂ := rfl

/-- Instantiation of mock-route independence at two unrelated trips. -/
theorem mock_routes_independent_witness :
    mock_routes "Phoenix, AZ" "Sedona, AZ" = mock_routes "" "nowhere" :=
  mock_routes_independent "Phoenix, AZ" "Sedona, AZ" "" "nowhere"

/-- C10: the "parks and landmarks" substitute is used whenever the
comma-join of the first three POI names is the empty string, even when the
POI list is non-empty (a lone POI with a missing or empty name). -/
theorem highlights_substitute_on_empty_join (places : List POI)
    (hne : places ≠ [])
    (hj : String.intercalate ", " ((places.take 3).map (fun p => p.name.getD "")) = "") :
    highlightsOf places = "parks and landmarks" := by
  simp only [highlightsOf]
  rw [if_pos hj]

/-- Instantiation of the highlights-substitute theorem at a non-empty POI
list consisting of one nameless POI. -/
theorem highlights_substitute_witness :
    highlightsOf [{ name := none }] = "parks and landmarks" :=
  highlights_substitute_on_empty_join [{ name := none }] (by decide) (by decide)

/-- C3: route retrieval always yields a non-empty route list; when the
routing credential is absent or the provider yields zero routes (which is
also what every transport failure produces), the result is exactly the
fixed mock pair, whose ids, geometries, distances and durations are the
listed constants, identically for every request. -/
theorem route_retrieval_nonempty_fallback (cfg : Config)
    (pr : String → String → List Route) (o d : String) :
    (get_routes cfg pr ⟨o, d, none, none, none, none⟩).routes.getD [] ≠ []
    ∧ ((cfg.googleKey = none ∨ pr o d = []) →
        (get_routes cfg pr ⟨o, d, none, none, none, none⟩).routes
          = some (mock_routes o d))
    ∧ (mock_routes o d).map Route.id = ["fastest", "scenic"]
    ∧ (mock_routes o d).map (fun r => r.polyline.encodedPolyline)
        = ["\x7d_seFf|`uPd@w@`A_BvB\x7dC", "o`seFz\x7b`uPp@jAb@l@"]
    ∧ (mock_routes o d).map (fun r => r.distanceMeters) = [some 190000, some 210000]
    ∧ (mock_routes o d).map (fun r => r.durationSeconds) = [some 7200, some 8400] := by
  refine ⟨?_, ?_, rfl, rfl, rfl, rfl⟩
  · cases hk : cfg.googleKey with
    | none => simp [get_routes, hk, mock_routes]
    | some key =>
        simp only [get_routes, hk, Option.getD_some]
        cases hpr : pr o d with
        | nil => simp [mock_routes]
        | cons a l => simp
  · rintro (hnone | hempty)
    · simp [get_routes, hnone]
    · cases hk : cfg.googleKey with
      | none => simp [get_routes, hk]
      | some key => simp [get_routes, hk, hempty]

/-- Instantiation of the route-retrieval theorem with no credential and a
provider returning nothing: the fallback is the mock pair. -/
theorem route_retrieval_witness :
    (get_routes ⟨none, none⟩ (fun _ _ => [])
        ⟨"Phoenix, AZ", "Sedona, AZ", none, none, none, none⟩).routes
      = some (mock_routes "Phoenix, AZ" "Sedona, AZ") :=
  (route_retrieval_nonempty_fallback ⟨none, none⟩ (fun _ _ => [])
    "Phoenix, AZ" "Sedona, AZ").2.1 (Or.inl rfl)

/-- C5: route retrieval leaves the downstream mappings untouched;
enrichment preserves the routes and produces a POI mapping whose keys are
distinct and are exactly the route ids; scoring preserves routes and the
POI mapping and produces a score mapping whose keys are distinct and are
exactly the route ids; the narrative stage changes no field but the
explanation.  No stage removes or reorders the routes sequence. -/
theorem stage_invariants (cfg : Config) (pr : String → String → List Route)
    (pp : Nat → List POI) (g : Except Unit Json) (s t u w : TripState) :
    ((get_routes cfg pr w).places_by_route = w.places_by_route
      ∧ (get_routes cfg pr w).scenic_scores = w.scenic_scores)
    ∧ ((get_places cfg pp s).routes = s.routes
      ∧ (∀ k, k ∈ dictKeys ((get_places cfg pp s).places_by_route.getD [])
            ↔ k ∈ (s.routes.getD []).map Route.id)
      ∧ (dictKeys ((get_places cfg pp s).places_by_route.getD [])).Nodup)
    ∧ ((scenic_score t).routes = t.routes
      ∧ (scenic_score t).places_by_route = t.places_by_route
      ∧ (∀ k, k ∈ dictKeys ((scenic_score t).scenic_scores.getD [])
            ↔ k ∈ (t.routes.getD []).map Route.id)
      ∧ (dictKeys ((scenic_score t).scenic_scores.getD [])).Nodup)
    ∧ ((explain_with_gemini cfg g u).routes = u.routes
      ∧ (explain_with_gemini cfg g u).places_by_route = u.places_by_route
      ∧ (explain_with_gemini cfg g u).scenic_scores = u.scenic_scores) := by
  refine ⟨⟨?_, ?_⟩, ⟨rfl, ?_, ?_⟩, ⟨rfl, rfl, ?_, ?_⟩, ?_⟩
  · cases hk : cfg.googleKey <;> simp [get_routes, hk]
  · cases hk : cfg.googleKey <;> simp [get_routes, hk]
  · intro k
    simp only [get_places, Option.getD_some]
    rw [mem_dictKeys_get_places_loop]
    simp [dictKeys]
  · simp only [get_places, Option.getD_some]
    exact nodup_dictKeys_get_places_loop cfg pp _ 0 [] (by simp [dictKeys])
  · intro k
    simp only [scenic_score, Option.getD_some]
    rw [mem_dictKeys_insertFold (fun r => scoreOf (t.places_by_route.getD []) r.id)]
    simp [dictKeys]
  · simp only [scenic_score, Option.getD_some]
    exact nodup_dictKeys_insertFold (fun r => scoreOf (t.places_by_route.getD []) r.id)
      _ [] (by simp [dictKeys])
  · cases h : u.routes.getD [] with
    | nil => simp [explain_with_gemini, h]
    | cons r0 rest =>
        cases hg : cfg.geminiKey with
        | none => simp [explain_with_gemini, h, hg]
        | some kk =>
            cases g with
            | error e => simp [explain_with_gemini, h, hg]
            | ok data =>
                cases he : extractText data with
                | error e => simp [explain_with_gemini, h, hg, he]
                | ok v => simp [explain_with_gemini, h, hg, he]

/-- Instantiation of the stage invariants at a concrete mid-pipeline state
in fallback mode. -/
theorem stage_invariants_witness :
    (scenic_score ⟨"a", "b", some (mock_routes "a" "b"),
        some [("fastest", mock_places), ("scenic", mock_places)], none, none⟩).routes
      = some (mock_routes "a" "b") :=
  (stage_invariants ⟨none, none⟩ (fun _ _ => []) (fun _ => []) (Except.error ())
    ⟨"a", "b", none, none, none, none⟩
    ⟨"a", "b", some (mock_routes "a" "b"),
      some [("fastest", mock_places), ("scenic", mock_places)], none, none⟩
    ⟨"a", "b", none, none, none, none⟩
    ⟨"a", "b", none, none, none, none⟩).2.2.1.1

/-- C4: with a non-empty route list, the top route selected by the
narrative stage's max, keyed by the score mapping with default 0, is the
first route attaining the maximum key (strictly greater than every earlier
key, no smaller than every later key); the response assembly's max over the
assembled entries selects the corresponding entry, which reports the same
id; and the narrative stage's fallback explanation describes exactly that
route's score and highlights. -/
theorem top_route_selection (scores : List (String × ℚ)) (r0 : Route) (rest : List Route) :
    ∃ l₁ l₂,
      r0 :: rest
        = l₁ ++ pyMaxFold (fun r => (pyGet r.id scores).getD 0) r0 rest :: l₂
      ∧ (∀ y ∈ l₁, (pyGet y.id scores).getD 0
            < (pyGet (pyMaxFold (fun r => (pyGet r.id scores).getD 0) r0 rest).id scores).getD 0)
      ∧ (∀ y ∈ l₂, (pyGet y.id scores).getD 0
            ≤ (pyGet (pyMaxFold (fun r => (pyGet r.id scores).getD 0) r0 rest).id scores).getD 0)
      ∧ pyMax (fun a : ApiRoute => a.scenicScore) ((r0 :: rest).map (toApiRoute scores))
          = some (toApiRoute scores (pyMaxFold (fun r => (pyGet r.id scores).getD 0) r0 rest))
      ∧ (toApiRoute scores (pyMaxFold (fun r => (pyGet r.id scores).getD 0) r0 rest)).id
          = (pyMaxFold (fun r => (pyGet r.id scores).getD 0) r0 rest).id
      ∧ ∀ (o dd : String) (pbr : Option (List (String × List POI))) (gr : Except Unit Json),
          (explain_with_gemini ⟨none, none⟩ gr
              ⟨o, dd, some (r0 :: rest), pbr, some scores, none⟩).explanation
            = some (Json.str (explainTemplate
                ((pyGet (pyMaxFold (fun r => (pyGet r.id scores).getD 0) r0 rest).id scores).getD 0)
                (highlightsOf ((pyGet (pyMaxFold (fun r => (pyGet r.id scores).getD 0) r0 rest).id
                    (pbr.getD [])).getD [])))) := by
  obtain ⟨l₁, l₂, hdec, h1, h2⟩ :=
    pyMaxFold_decomp (fun r => (pyGet r.id scores).getD 0) rest r0
  refine ⟨l₁, l₂, hdec, h1, h2, ?_, rfl, ?_⟩
  · show pyMax _ _ = _
    simp only [List.map_cons, pyMax]
    rw [pyMaxFold_map (toApiRoute scores) (fun a => a.scenicScore)]
    rfl
  · intro o dd pbr gr
    rfl

/-- Instantiation of the top-route theorem at the spec's example scores
(fastest 3.0, scenic 7.5) over a two-route list. -/
theorem top_route_selection_witness :
    let scores : List (String × ℚ) := [("fastest", 3), ("scenic", 7.5)]
    let rA : Route := ⟨"fastest", none, ⟨"p1"⟩, none, none, none⟩
    let rB : Route := ⟨"scenic", none, ⟨"p2"⟩, none, none, none⟩
    ∃ l₁ l₂,
      rA :: [rB] = l₁ ++ pyMaxFold (fun r => (pyGet r.id scores).getD 0) rA [rB] :: l₂
      ∧ (∀ y ∈ l₁, (pyGet y.id scores).getD 0
            < (pyGet (pyMaxFold (fun r => (pyGet r.id scores).getD 0) rA [rB]).id scores).getD 0)
      ∧ (∀ y ∈ l₂, (pyGet y.id scores).getD 0
            ≤ (pyGet (pyMaxFold (fun r => (pyGet r.id scores).getD 0) rA [rB]).id scores).getD 0)
      ∧ pyMax (fun a : ApiRoute => a.scenicScore) ((rA :: [rB]).map (toApiRoute scores))
          = some (toApiRoute scores (pyMaxFold (fun r => (pyGet r.id scores).getD 0) rA [rB]))
      ∧ (toApiRoute scores (pyMaxFold (fun r => (pyGet r.id scores).getD 0) rA [rB])).id
          = (pyMaxFold (fun r => (pyGet r.id scores).getD 0) rA [rB]).id
      ∧ ∀ (o dd : String) (pbr : Option (List (String × List POI))) (gr : Except Unit Json),
          (explain_with_gemini ⟨none, none⟩ gr
              ⟨o, dd, some (rA :: [rB]), pbr, some scores, none⟩).explanation
            = some (Json.str (explainTemplate
                ((pyGet (pyMaxFold (fun r => (pyGet r.id scores).getD 0) rA [rB]).id scores).getD 0)
                (highlightsOf ((pyGet (pyMaxFold (fun r => (pyGet r.id scores).getD 0) rA [rB]).id
                    (pbr.getD [])).getD [])))) :=
  top_route_selection [("fastest", 3), ("scenic", 7.5)]
    ⟨"fastest", none, ⟨"p1"⟩, none, none, none⟩
    [⟨"scenic", none, ⟨"p2"⟩, none, none, none⟩]

/-- C6: with an empty route list at the narrative stage, the explanation is
exactly "No routes available.", the stage's result is independent of the
configuration and of the narrative oracle (no call, no template), and the
assembled response's topScenicRouteId is null. -/
theorem empty_routes_terminal (cfg : Config) (g : Except Unit Json)
    (s : TripState) (ts : ℤ) (h : s.routes.getD [] = []) :
    (explain_with_gemini cfg g s).explanation = some (Json.str "No routes available.")
    ∧ (∀ (cfg₂ : Config) (g₂ : Except Unit Json),
        explain_with_gemini cfg g s = explain_with_gemini cfg₂ g₂ s)
    ∧ (assembleResponse (explain_with_gemini cfg g s) ts).topScenicRouteId = none := by
  have hred : ∀ (c : Config) (gg : Except Unit Json),
      explain_with_gemini c gg s
        = { s with explanation := some (Json.str "No routes available.") } := by
    intro c gg
    unfold explain_with_gemini
    rw [h]
  refine ⟨by rw [hred], fun c₂ g₂ => by rw [hred, hred], ?_⟩
  rw [hred]
  simp [assembleResponse, h, pyMax]

/-- Instantiation of the empty-route terminal case at a degenerate state
whose route list is present but empty. -/
theorem empty_routes_terminal_witness :
    (explain_with_gemini ⟨none, some "k"⟩ (Except.error ())
        ⟨"a", "b", some [], none, none, none⟩).explanation
      = some (Json.str "No routes available.")
    ∧ (assembleResponse (explain_with_gemini ⟨none, some "k"⟩ (Except.error ())
        ⟨"a", "b", some [], none, none, none⟩) 1700000000).topScenicRouteId = none :=
  ⟨(empty_routes_terminal ⟨none, some "k"⟩ (Except.error ())
      ⟨"a", "b", some [], none, none, none⟩ 1700000000 rfl).1,
   (empty_routes_terminal ⟨none, some "k"⟩ (Except.error ())
      ⟨"a", "b", some [], none, none, none⟩ 1700000000 rfl).2.2⟩

/-- C2 fails as stated: with the generation credential configured and the
external call returning the parseable but shape-less body { }, the chain of
defaulted lookups succeeds without raising, so the stored explanation is
the extracted empty string rather than the templated fallback sentence
(which here would carry score 0 and the substitute highlights). -/
theorem narrative_malformed_not_template :
    (explain_with_gemini ⟨none, some "k"⟩ (Except.ok (Json.obj []))
        ⟨"Phoenix, AZ", "Sedona, AZ",
          some (mock_routes "Phoenix, AZ" "Sedona, AZ"), none, none, none⟩).explanation
      = some (Json.str "")
    ∧ Json.str "" ≠ Json.str (explainTemplate 0 "parks and landmarks") := by
  constructor
  · rfl
  · intro hc
    have hs := Json.str.inj hc
    exact absurd hs (by decide)

/-- C2 amended: whenever the generation credential is absent, or the
external call (or parsing its body) raises, or extracting the text from the
parsed body raises (e.g. an empty candidates array), the explanation is
exactly the templated sentence built from the top route's score and
highlights; the stage, a total function, never fails outward.  (A parseable
body merely lacking the expected path yields the extracted default, the
empty string, instead.) -/
theorem narrative_fallback (cfg : Config) (g : Except Unit Json) (s : TripState)
    (r0 : Route) (rest : List Route) (hr : s.routes = some (r0 :: rest))
    (hfail : cfg.geminiKey = none ∨ g = Except.error () ∨
      ∃ dta, g = Except.ok dta ∧ extractText dta = Except.error ()) :
    (explain_with_gemini cfg g s).explanation
      = some (Json.str (explainTemplate
          ((pyGet (pyMaxFold (fun r => (pyGet r.id (s.scenic_scores.getD [])).getD 0) r0 rest).id
              (s.scenic_scores.getD [])).getD 0)
          (highlightsOf ((pyGet (pyMaxFold (fun r => (pyGet r.id (s.scenic_scores.getD [])).getD 0) r0 rest).id
              (s.places_by_route.getD [])).getD [])))) := by
  have hr' : s.routes.getD [] = r0 :: rest := by rw [hr]; rfl
  rcases hfail with hnone | herr | ⟨dta, hok, hext⟩
  · simp [explain_with_gemini, hr', hnone]
  · cases hk : cfg.geminiKey with
    | none => simp [explain_with_gemini, hr', hk]
    | some kk => simp [explain_with_gemini, hr', hk, herr]
  · cases hk : cfg.geminiKey with
    | none => simp [explain_with_gemini, hr', hk]
    | some kk => simp [explain_with_gemini, hr', hk, hok, hext]

/-- Instantiation of the amended narrative fallback: credential configured
but the external call raised; the explanation is the exact templated
sentence of the spec's example. -/
theorem narrative_fallback_witness :
    (explain_with_gemini ⟨none, some "k"⟩ (Except.error ())
        ⟨"Phoenix, AZ", "Sedona, AZ",
          some (mock_routes "Phoenix, AZ" "Sedona, AZ"),
          some [("scenic",
            [⟨some "Oak Creek Canyon Vista", some ["park"], some (4.7 : ℚ)⟩,
             ⟨some "Red Rock State Park", some ["park"], some (4.8 : ℚ)⟩])],
          some [("fastest", (3 : ℚ)), ("scenic", 7.5)], none⟩).explanation
      = some (Json.str
          "This route scores 7.5/10 with highlights: Oak Creek Canyon Vista, Red Rock State Park.") := by
  have h := narrative_fallback ⟨none, some "k"⟩ (Except.error ())
    ⟨"Phoenix, AZ", "Sedona, AZ",
      some (mock_routes "Phoenix, AZ" "Sedona, AZ"),
      some [("scenic",
        [⟨some "Oak Creek Canyon Vista", some ["park"], some (4.7 : ℚ)⟩,
         ⟨some "Red Rock State Park", some ["park"], some (4.8 : ℚ)⟩])],
      some [("fastest", (3 : ℚ)), ("scenic", 7.5)], none⟩
    ⟨"fastest", some "Fastest", ⟨"\x7d_seFf|`uPd@w@`A_BvB\x7dC"⟩,
      some 190000, some 7200, some "I-17 N"⟩
    [⟨"scenic", some "Scenic", ⟨"o`seFz\x7b`uPp@jAb@l@"⟩,
      some 210000, some 8400, some "State Rte 179 through red rocks"⟩]
    rfl (Or.inr (Or.inl rfl))
  rw [h]
  with_unfolding_all rfl

end Tripster
